import Mathlib

/-!
Verification of the openapi-integrator-mcp media server: a shallow embedding of
its notification fan-out, background video poll loop, tool handlers and the
argument guards, with theorems checking the natural-language specification.

Conventions of the embedding:
* JavaScript `string | undefined` configuration fields and argument fields are
  `Option String`; JS truthiness (`undefined` and `""` are falsy) is `jsTruthy`.
* External effects (HTTP requests, file writes, clocks, random file names) are
  supplied by explicit environment records; a fallible operation's outcome is
  an `Except String Unit` chosen by the environment.
* Functions that can throw return `Except McpError _`; a `try/catch` in the
  source becomes an explicit `match` on the environment outcome.
-/

namespace OpenapiIntegrator

/-- JS truthiness of a `string | undefined` value: `undefined` and the empty
string are falsy, every other string is truthy. -/
def jsTruthy : Option String → Bool
  | none => false
  | some s => s ≠ ""

/-- JS truthiness of a numeric field (`0` is falsy). -/
def jsTruthyInt : Option Int → Bool
  | none => false
  | some z => z ≠ 0

/-- JS `a || dflt` on an optional string: falsy values fall through. -/
def jsStrOr (o : Option String) (dflt : String) : String :=
  match o with
  | some s => if s = "" then dflt else s
  | none => dflt

/-- The slice of `AppConfig` (src/src/config/index.ts and the `AppConfig`
type) used by the handlers under verification.  Channel credentials are
`string | undefined` in the source, hence `Option String`. -/
structure AppConfig where
  onebotHttpUrl : Option String
  onebotMessageType : Option String
  onebotTargetId : Option String
  onebotAccessToken : Option String
  telegramBotToken : Option String
  telegramChatId : Option String
  cfImgbedUploadUrl : Option String
  cfImgbedApiKey : Option String
  siliconflowApiKey : Option String
  siliconflowVideoModel : String
  defaultSpeechModel : String
  defaultSpeechVoice : String
  defaultSpeechSpeed : ℚ
  imageProcessingTimeout : Nat
  deriving Repr

/-- `isOneBotConfigured` from the `generate_video` handler:
`!!(config.onebotHttpUrl && config.onebotMessageType && config.onebotTargetId)`.
The same three-way truthiness guard opens `sendOneBotNotification`. -/
def onebotConfigured (c : AppConfig) : Bool :=
  jsTruthy c.onebotHttpUrl && jsTruthy c.onebotMessageType && jsTruthy c.onebotTargetId

/-- `isTelegramConfigured`:
`!!(config.telegramBotToken && config.telegramChatId)`; the same guard opens
`sendTelegramNotification`. -/
def telegramConfigured (c : AppConfig) : Bool :=
  jsTruthy c.telegramBotToken && jsTruthy c.telegramChatId

/-- `config.cfImgbedUploadUrl && config.cfImgbedApiKey` guard shared by the
video and image upload paths. -/
def cfConfigured (c : AppConfig) : Bool :=
  jsTruthy c.cfImgbedUploadUrl && jsTruthy c.cfImgbedApiKey

/-- What one notification channel did for one message. -/
inductive ChannelOutcome where
  | skipped                      -- configuration incomplete: silent early return
  | invalidTypeLogged            -- OneBot message type neither private nor group
  | sent                         -- delivery succeeded
  | failedLogged (err : String)  -- delivery failed; caught and logged locally
  deriving Repr, DecidableEq

/-- `sendOneBotNotification` (src/src/utils/index.ts:129-152).  The `post`
argument is the outcome of the `axios.post` to the OneBot endpoint.  The
source wraps the post in `try/catch`, so an `Except.error` result would mean
an exception escaping to the caller. -/
def sendOneBotNotification (c : AppConfig) (_message : String)
    (post : Except String Unit) : Except String ChannelOutcome :=
  if onebotConfigured c then
    if c.onebotMessageType = some "private" ∨ c.onebotMessageType = some "group" then
      match post with
      | .ok _ => .ok .sent
      | .error e => .ok (.failedLogged e)
    else .ok .invalidTypeLogged
  else .ok .skipped

/-- `sendTelegramNotification` (src/src/utils/index.ts:154-174); `send` is the
outcome of `bot.sendMessage`, wrapped in `try/catch` by the source. -/
def sendTelegramNotification (c : AppConfig) (_message : String)
    (send : Except String Unit) : Except String ChannelOutcome :=
  if telegramConfigured c then
    match send with
    | .ok _ => .ok .sent
    | .error e => .ok (.failedLogged e)
  else .ok .skipped

/-- The fan-out pattern used at every notification site:
`await sendOneBotNotification(...); await sendTelegramNotification(...)`.
Sequential composition in the exception monad: if the first call threw, the
second would never run. -/
def notifyFanOut (c : AppConfig) (message : String)
    (obPost tgSend : Except String Unit) :
    Except String (ChannelOutcome × ChannelOutcome) :=
  match sendOneBotNotification c message obPost with
  | .error e => .error e
  | .ok a =>
    match sendTelegramNotification c message tgSend with
    | .error e => .error e
    | .ok b => .ok (a, b)

/-- C6: a notification fan-out never raises to the caller; each channel is
skipped silently when unconfigured; a configured channel's delivery succeeds
exactly when its own endpoint call succeeds, independent of the other
channel's outcome — in particular Telegram still receives its message when the
OneBot endpoint is unreachable. -/
theorem notify_fanout_isolated (c : AppConfig) (msg : String)
    (obPost tgSend : Except String Unit) :
    ∃ obOut tgOut, notifyFanOut c msg obPost tgSend = .ok (obOut, tgOut)
      ∧ (onebotConfigured c = false → obOut = .skipped)
      ∧ (telegramConfigured c = false → tgOut = .skipped)
      ∧ (telegramConfigured c = true → (tgOut = .sent ↔ tgSend = .ok ()))
      ∧ (onebotConfigured c = true →
          (c.onebotMessageType = some "private" ∨ c.onebotMessageType = some "group") →
          (obOut = .sent ↔ obPost = .ok ())) := by
  unfold notifyFanOut sendOneBotNotification sendTelegramNotification
  by_cases hob : onebotConfigured c <;>
    by_cases hty : c.onebotMessageType = some "private" ∨ c.onebotMessageType = some "group" <;>
      by_cases htg : telegramConfigured c <;>
        cases obPost <;> cases tgSend <;>
          simp [hob, hty, htg] <;>
            exact ⟨_, _, ⟨rfl, rfl⟩, by simp⟩

/-! ## Background video poll loop (src/src/utils/index.ts:225-369) -/

/-- The `results` block of a SiliconFlow video status response: the `url`
fields of `results.videos`, plus timing and seed.  `videos` itself may be
absent at runtime (the source reads `results?.videos?.[0]?.url`). -/
structure VideoResults where
  videos : Option (List String)
  inference : Option Nat
  seed : Option Int
  deriving Repr, DecidableEq

/-- A parsed `/v1/video/status` response body.  `status` is a free-form string
at runtime; the source switches on `"Succeed" | "Failed" | "InQueue" |
"InProgress"` with a default branch. -/
structure VideoStatusResult where
  status : String
  reason : Option String
  results : Option VideoResults
  deriving Repr, DecidableEq

/-- `checkVideoStatus` (src/src/utils/index.ts:238-257): the HTTP call's
outcome is the argument; any error is converted by the `catch` block into a
synthetic `Failed` result whose reason embeds the error message, so the
function itself never throws. -/
def checkVideoStatus : Except String VideoStatusResult → VideoStatusResult
  | .ok r => r
  | .error msg =>
      { status := "Failed", reason := some ("Error checking status: " ++ msg), results := none }

/-- `statusResult.results?.videos?.[0]?.url`. -/
def extractedVideoUrl (r : VideoStatusResult) : Option String :=
  r.results.bind fun res => res.videos.bind List.head?

/-- The `if (!videoUrl)` test in the `Succeed` branch: JS-falsy when the URL
is absent or the empty string. -/
def videoUrlPresent (r : VideoStatusResult) : Bool :=
  jsTruthy (extractedVideoUrl r)

/-- Which message one notification fan-out of the poll loop carries. -/
inductive FanOutKind where
  | timeout                   -- 24-hour polling timeout message
  | noVideoUrl                -- Succeed status but no video URL: failure message
  | processError (msg : String) -- download/save/read failed in the Succeed branch
  | cfUploadOk (url : String) -- remote-store upload succeeded
  | cfUploadFail              -- remote-store upload failed
  | success                   -- final composed success message
  | failure (reason : String) -- provider reported Failed
  | unknownStatus (s : String) -- unrecognized status value
  deriving Repr, DecidableEq

/-- One observable step of the poll loop: an HTTP status request, or one
notification fan-out attempt (one message broadcast over both channels). -/
inductive PollEvent where
  | statusCheck (k : Nat)
  | fanOut (kind : FanOutKind)
  deriving Repr, DecidableEq

/-- Environment of one poll loop: the clock at each iteration, the status
response of each check, and the outcomes of the file/upload operations in the
`Succeed` branch (indexed by the iteration that performs them). -/
structure PollEnv where
  nowAt : Nat → Nat
  respAt : Nat → Except String VideoStatusResult
  downloadAt : Nat → Except String Unit
  readAt : Nat → Except String Unit
  cfUploadAt : Nat → Option String

/-- `pollInterval = 10000`. -/
def pollIntervalMs : Nat := 10000

/-- `maxTimeout = 24 * 60 * 60 * 1000`. -/
def maxTimeoutMs : Nat := 24 * 60 * 60 * 1000

/-- The `Succeed`-with-URL block (src/src/utils/index.ts:300-339): download
the video (with `ensureDirectoryExists`) and read it back; any exception lands
in the `catch` that sends one processing-failure fan-out.  When the remote
store is configured, `uploadToCfImgbed` (which never throws) yields one extra
fan-out about the upload outcome before the final success fan-out. -/
def succeedEvents (c : AppConfig) (env : PollEnv) (k : Nat) : List PollEvent :=
  match env.downloadAt k with
  | .error e => [.fanOut (.processError e)]
  | .ok _ =>
    if cfConfigured c then
      match env.readAt k with
      | .error e => [.fanOut (.processError e)]
      | .ok _ =>
        match env.cfUploadAt k with
        | some u => [.fanOut (.cfUploadOk u), .fanOut .success]
        | none => [.fanOut .cfUploadFail, .fanOut .success]
    else [.fanOut .success]

/-- `handleSiliconFlowVideoGeneration`'s `poll` closure
(src/src/utils/index.ts:272-365) as a trace function.  `fuel` bounds how many
self-reschedules we observe (`setTimeout(poll, pollInterval)` recursion);
`k` numbers the iterations.  Branches: wall-clock timeout, then a switch on
the (synthetic-failure-corrected) status: `Succeed`, `Failed`,
`InQueue`/`InProgress` (the only rescheduling branch), and the default branch
that notifies and stops (its `setTimeout` is commented out in the source). -/
def pollFrom (c : AppConfig) (env : PollEnv) (startTime : Nat) : Nat → Nat → List PollEvent
  | 0, _ => []
  | fuel + 1, k =>
    if maxTimeoutMs < env.nowAt k - startTime then [.fanOut .timeout]
    else
      .statusCheck k ::
        (if (checkVideoStatus (env.respAt k)).status = "Succeed" then
           (if videoUrlPresent (checkVideoStatus (env.respAt k)) then succeedEvents c env k
            else [.fanOut .noVideoUrl])
         else if (checkVideoStatus (env.respAt k)).status = "Failed" then
           [.fanOut (.failure (jsStrOr (checkVideoStatus (env.respAt k)).reason "unknown error"))]
         else if (checkVideoStatus (env.respAt k)).status = "InQueue"
              ∨ (checkVideoStatus (env.respAt k)).status = "InProgress" then
           pollFrom c env startTime fuel (k + 1)
         else [.fanOut (.unknownStatus (checkVideoStatus (env.respAt k)).status)])

/-- Is an event an HTTP status check? -/
def isCheck : PollEvent → Bool
  | .statusCheck _ => true
  | .fanOut _ => false

/-- The fan-out kind of an event, if any. -/
def fanKindOf : PollEvent → Option FanOutKind
  | .fanOut k => some k
  | .statusCheck _ => none

/-- Number of status checks in a trace. -/
def countChecks (t : List PollEvent) : Nat := (t.filter isCheck).length

/-- Number of fan-out attempts in a trace whose kind satisfies `p`. -/
def fanOutsWhere (p : FanOutKind → Bool) (t : List PollEvent) : Nat :=
  ((t.filterMap fanKindOf).filter p).length

/-- Total number of notification fan-out attempts in a trace. -/
def countFanOuts (t : List PollEvent) : Nat := fanOutsWhere (fun _ => true) t

/-- Fan-outs reporting the remote-store upload outcome. -/
def isUploadKind : FanOutKind → Bool
  | .cfUploadOk _ => true
  | .cfUploadFail => true
  | _ => false

/-- Terminal fan-outs: everything except the secondary upload report. -/
def isTerminalKind (k : FanOutKind) : Bool := !isUploadKind k

/-- The final composed success message. -/
def isSuccessKind : FanOutKind → Bool
  | .success => true
  | _ => false

theorem countChecks_nil : countChecks [] = 0 := rfl

theorem countChecks_cons_check (k : Nat) (t : List PollEvent) :
    countChecks (.statusCheck k :: t) = countChecks t + 1 := by
  simp [countChecks, isCheck, List.filter]

theorem countChecks_cons_fan (x : FanOutKind) (t : List PollEvent) :
    countChecks (.fanOut x :: t) = countChecks t := by
  simp [countChecks, isCheck, List.filter]

theorem fanOutsWhere_nil (p : FanOutKind → Bool) : fanOutsWhere p [] = 0 := rfl

theorem fanOutsWhere_cons_check (p : FanOutKind → Bool) (k : Nat) (t : List PollEvent) :
    fanOutsWhere p (.statusCheck k :: t) = fanOutsWhere p t := by
  simp [fanOutsWhere, fanKindOf, List.filterMap_cons]

theorem fanOutsWhere_cons_fan (p : FanOutKind → Bool) (x : FanOutKind) (t : List PollEvent) :
    fanOutsWhere p (.fanOut x :: t) = (if p x then 1 else 0) + fanOutsWhere p t := by
  by_cases h : p x <;>
    simp [fanOutsWhere, fanKindOf, List.filterMap_cons, List.filter, h, Nat.add_comm]

/-- Every fact about one run of the `Succeed`-with-URL block needed below:
no status checks, exactly one terminal fan-out, at most one upload fan-out
(none when the store is unconfigured), between one and two fan-outs in total
(two only with the store configured), and exactly one success message when
download and read go through. -/
theorem succeedEvents_spec (c : AppConfig) (env : PollEnv) (k : Nat) :
    countChecks (succeedEvents c env k) = 0
    ∧ fanOutsWhere isTerminalKind (succeedEvents c env k) = 1
    ∧ fanOutsWhere isUploadKind (succeedEvents c env k) ≤ 1
    ∧ (cfConfigured c = false → fanOutsWhere isUploadKind (succeedEvents c env k) = 0)
    ∧ 1 ≤ countFanOuts (succeedEvents c env k)
    ∧ countFanOuts (succeedEvents c env k) ≤ 2
    ∧ (countFanOuts (succeedEvents c env k) = 2 → cfConfigured c = true)
    ∧ (env.downloadAt k = .ok () → (cfConfigured c = true → env.readAt k = .ok ()) →
        fanOutsWhere isSuccessKind (succeedEvents c env k) = 1) := by
  unfold succeedEvents
  cases hdl : env.downloadAt k with
  | error e =>
    simp [hdl, countChecks, countFanOuts, fanOutsWhere, fanKindOf, isCheck,
      isTerminalKind, isUploadKind, isSuccessKind, List.filter, List.filterMap]
  | ok u =>
    by_cases hcf : cfConfigured c
    · simp only [hcf, if_true]
      cases hrd : env.readAt k with
      | error e =>
        simp [countChecks, countFanOuts, fanOutsWhere, fanKindOf, isCheck,
          isTerminalKind, isUploadKind, isSuccessKind, List.filter, List.filterMap, hrd]
      | ok u2 =>
        cases env.cfUploadAt k <;>
          simp [countChecks, countFanOuts, fanOutsWhere, fanKindOf, isCheck,
            isTerminalKind, isUploadKind, isSuccessKind, List.filter, List.filterMap]
    · simp [hcf, countChecks, countFanOuts, fanOutsWhere, fanKindOf, isCheck,
        isTerminalKind, isUploadKind, isSuccessKind, List.filter, List.filterMap]

/-- One-step unfolding of the poll loop. -/
theorem pollFrom_succ (c : AppConfig) (env : PollEnv) (startTime fuel k : Nat) :
    pollFrom c env startTime (fuel + 1) k =
      if maxTimeoutMs < env.nowAt k - startTime then [.fanOut .timeout]
      else
        .statusCheck k ::
          (if (checkVideoStatus (env.respAt k)).status = "Succeed" then
             (if videoUrlPresent (checkVideoStatus (env.respAt k)) then succeedEvents c env k
              else [.fanOut .noVideoUrl])
           else if (checkVideoStatus (env.respAt k)).status = "Failed" then
             [.fanOut (.failure (jsStrOr (checkVideoStatus (env.respAt k)).reason "unknown error"))]
           else if (checkVideoStatus (env.respAt k)).status = "InQueue"
                ∨ (checkVideoStatus (env.respAt k)).status = "InProgress" then
             pollFrom c env startTime fuel (k + 1)
           else [.fanOut (.unknownStatus (checkVideoStatus (env.respAt k)).status)]) := rfl

/-- C1 (amended): once an iteration of the poll loop observes a terminal
status — `Succeed`, `Failed`, or the 24-hour timeout — it performs at least
one and at most two notification fan-out attempts (exactly one terminal
notification; a second fan-out occurs only for the remote-store upload report,
which requires the store to be configured) and issues no further status
checks: the remainder of the trace contains no `statusCheck` event. -/
theorem poll_terminal_behavior (c : AppConfig) (env : PollEnv) (start fuel k : Nat) :
    (maxTimeoutMs < env.nowAt k - start →
       pollFrom c env start (fuel + 1) k = [.fanOut .timeout])
    ∧ (env.nowAt k - start ≤ maxTimeoutMs →
        (((checkVideoStatus (env.respAt k)).status = "Succeed" →
           ∃ evs, pollFrom c env start (fuel + 1) k = .statusCheck k :: evs
             ∧ countChecks evs = 0
             ∧ fanOutsWhere isTerminalKind evs = 1
             ∧ 1 ≤ countFanOuts evs ∧ countFanOuts evs ≤ 2
             ∧ (countFanOuts evs = 2 → cfConfigured c = true))
         ∧ ((checkVideoStatus (env.respAt k)).status = "Failed" →
             pollFrom c env start (fuel + 1) k
               = [.statusCheck k,
                  .fanOut (.failure
                    (jsStrOr (checkVideoStatus (env.respAt k)).reason "unknown error"))]))) := by
  refine ⟨fun h => by rw [pollFrom_succ, if_pos h], fun hwin => ⟨?_, ?_⟩⟩
  · intro hst
    rw [pollFrom_succ, if_neg (by omega), hst]
    by_cases hurl : videoUrlPresent (checkVideoStatus (env.respAt k))
    · obtain ⟨h1, h2, _, _, h5, h6, h7, _⟩ := succeedEvents_spec c env k
      exact ⟨succeedEvents c env k, by rw [if_pos rfl, if_pos hurl], h1, h2, h5, h6, h7⟩
    · refine ⟨[.fanOut .noVideoUrl], by rw [if_pos rfl, if_neg hurl], ?_, ?_, ?_, ?_, ?_⟩ <;>
        simp [countChecks, countFanOuts, fanOutsWhere, fanKindOf, isCheck,
          isTerminalKind, isUploadKind, List.filter, List.filterMap]
  · intro hst
    rw [pollFrom_succ, if_neg (by omega), hst]
    rw [if_neg (by decide), if_pos rfl]

/-- Witness for C1 (amended) on the `Failed` branch at a concrete
environment. -/
theorem poll_terminal_behavior_witness :
    pollFrom
      { onebotHttpUrl := some "http://bot:5700", onebotMessageType := some "private",
        onebotTargetId := some "12345", onebotAccessToken := none,
        telegramBotToken := none, telegramChatId := none,
        cfImgbedUploadUrl := none, cfImgbedApiKey := none,
        siliconflowApiKey := some "sk", siliconflowVideoModel := "Wan-AI/Wan2.1-T2V-14B",
        defaultSpeechModel := "tts-1", defaultSpeechVoice := "alloy",
        defaultSpeechSpeed := 1, imageProcessingTimeout := 300000 }
      { nowAt := fun _ => 50000,
        respAt := fun _ => .ok { status := "Failed", reason := some "NSFW content", results := none },
        downloadAt := fun _ => .ok (), readAt := fun _ => .ok (),
        cfUploadAt := fun _ => none }
      0 1 0
    = [.statusCheck 0, .fanOut (.failure "NSFW content")] := by
  have h := (poll_terminal_behavior
    { onebotHttpUrl := some "http://bot:5700", onebotMessageType := some "private",
      onebotTargetId := some "12345", onebotAccessToken := none,
      telegramBotToken := none, telegramChatId := none,
      cfImgbedUploadUrl := none, cfImgbedApiKey := none,
      siliconflowApiKey := some "sk", siliconflowVideoModel := "Wan-AI/Wan2.1-T2V-14B",
      defaultSpeechModel := "tts-1", defaultSpeechVoice := "alloy",
      defaultSpeechSpeed := 1, imageProcessingTimeout := 300000 }
    { nowAt := fun _ => 50000,
      respAt := fun _ => .ok { status := "Failed", reason := some "NSFW content", results := none },
      downloadAt := fun _ => .ok (), readAt := fun _ => .ok (),
      cfUploadAt := fun _ => none }
    0 0 0).2 (by decide)
  exact h.2 rfl

/-- C1 counterexample: with the remote store configured and a `Succeed`
response carrying a URL, the loop performs TWO notification fan-out attempts
(the upload report and the final success message) after observing the
terminal status, refuting "exactly one notification fan-out attempt". -/
theorem poll_single_fanout_cex :
    (checkVideoStatus
        ((fun _ => Except.ok
          { status := "Succeed", reason := none,
            results := some { videos := some ["https://v.example.com/a.mp4"],
                              inference := some 5, seed := some 7 } } :
          Nat → Except String VideoStatusResult) 0)).status = "Succeed"
    ∧ countFanOuts
        (pollFrom
          { onebotHttpUrl := some "http://bot:5700", onebotMessageType := some "private",
            onebotTargetId := some "12345", onebotAccessToken := none,
            telegramBotToken := none, telegramChatId := none,
            cfImgbedUploadUrl := some "https://img.example.com/upload",
            cfImgbedApiKey := some "key",
            siliconflowApiKey := some "sk", siliconflowVideoModel := "Wan-AI/Wan2.1-T2V-14B",
            defaultSpeechModel := "tts-1", defaultSpeechVoice := "alloy",
            defaultSpeechSpeed := 1, imageProcessingTimeout := 300000 }
          { nowAt := fun _ => 50000,
            respAt := fun _ => .ok
              { status := "Succeed", reason := none,
                results := some { videos := some ["https://v.example.com/a.mp4"],
                                  inference := some 5, seed := some 7 } },
            downloadAt := fun _ => .ok (), readAt := fun _ => .ok (),
            cfUploadAt := fun _ => some "https://img.example.com/file/a.mp4" }
          0 1 0) = 2 := by
  constructor <;> rfl

/-- C2: a poll iteration that observes `Succeed` with no (JS-truthy) video
URL in the payload sends exactly one fan-out — the failure notification about
the missing URL — and the loop performs no further status checks: the whole
remaining trace is the one check followed by that one fan-out. -/
theorem poll_succeed_no_url (c : AppConfig) (env : PollEnv) (start fuel k : Nat)
    (hwin : env.nowAt k - start ≤ maxTimeoutMs)
    (hst : (checkVideoStatus (env.respAt k)).status = "Succeed")
    (hurl : videoUrlPresent (checkVideoStatus (env.respAt k)) = false) :
    pollFrom c env start (fuel + 1) k = [.statusCheck k, .fanOut .noVideoUrl]
    ∧ countFanOuts (pollFrom c env start (fuel + 1) k) = 1
    ∧ countChecks (pollFrom c env start (fuel + 1) k) = 1 := by
  have htrace : pollFrom c env start (fuel + 1) k = [.statusCheck k, .fanOut .noVideoUrl] := by
    rw [pollFrom_succ, if_neg (by omega), hst, if_pos rfl, if_neg (by simp [hurl])]
  refine ⟨htrace, ?_, ?_⟩ <;>
    rw [htrace] <;>
      simp [countChecks, countFanOuts, fanOutsWhere, fanKindOf, isCheck,
        List.filter, List.filterMap]

/-- Witness for C2 at a concrete environment. -/
theorem poll_succeed_no_url_witness :
    pollFrom
      { onebotHttpUrl := none, onebotMessageType := none,
        onebotTargetId := none, onebotAccessToken := none,
        telegramBotToken := some "tok", telegramChatId := some "42",
        cfImgbedUploadUrl := none, cfImgbedApiKey := none,
        siliconflowApiKey := some "sk", siliconflowVideoModel := "Wan-AI/Wan2.1-T2V-14B",
        defaultSpeechModel := "tts-1", defaultSpeechVoice := "alloy",
        defaultSpeechSpeed := 1, imageProcessingTimeout := 300000 }
      { nowAt := fun _ => 30000,
        respAt := fun _ => .ok
          { status := "Succeed", reason := none,
            results := some { videos := some [], inference := none, seed := none } },
        downloadAt := fun _ => .ok (), readAt := fun _ => .ok (),
        cfUploadAt := fun _ => none }
      0 3 0
    = [.statusCheck 0, .fanOut .noVideoUrl] :=
  (poll_succeed_no_url
    { onebotHttpUrl := none, onebotMessageType := none,
      onebotTargetId := none, onebotAccessToken := none,
      telegramBotToken := some "tok", telegramChatId := some "42",
      cfImgbedUploadUrl := none, cfImgbedApiKey := none,
      siliconflowApiKey := some "sk", siliconflowVideoModel := "Wan-AI/Wan2.1-T2V-14B",
      defaultSpeechModel := "tts-1", defaultSpeechVoice := "alloy",
      defaultSpeechSpeed := 1, imageProcessingTimeout := 300000 }
    { nowAt := fun _ => 30000,
      respAt := fun _ => .ok
        { status := "Succeed", reason := none,
          results := some { videos := some [], inference := none, seed := none } },
      downloadAt := fun _ => .ok (), readAt := fun _ => .ok (),
      cfUploadAt := fun _ => none }
    0 2 0 (by decide) rfl rfl).1

/-- C5: an HTTP error during a status check is converted by
`checkVideoStatus` into a synthetic `Failed` result whose reason embeds the
error message — no exception propagates — and the poll loop consequently
takes its ordinary `Failed` branch: it sends one failure fan-out carrying
that reason and stops checking. -/
theorem check_status_error_contained (c : AppConfig) (env : PollEnv)
    (start fuel k : Nat) (msg : String)
    (herr : env.respAt k = .error msg)
    (hwin : env.nowAt k - start ≤ maxTimeoutMs) :
    checkVideoStatus (env.respAt k)
      = { status := "Failed", reason := some ("Error checking status: " ++ msg), results := none }
    ∧ pollFrom c env start (fuel + 1) k
      = [.statusCheck k, .fanOut (.failure ("Error checking status: " ++ msg))] := by
  have hchk : checkVideoStatus (env.respAt k)
      = { status := "Failed", reason := some ("Error checking status: " ++ msg),
          results := none } := by
    rw [herr]; rfl
  refine ⟨hchk, ?_⟩
  have hst : (checkVideoStatus (env.respAt k)).status = "Failed" := by rw [hchk]
  have hrsn : (checkVideoStatus (env.respAt k)).reason
      = some ("Error checking status: " ++ msg) := by rw [hchk]
  have hne : ("Error checking status: " ++ msg) ≠ "" := by
    intro h
    have h2 : ("Error checking status: " ++ msg).data = ("" : String).data := by rw [h]
    simp [String.append] at h2
  rw [pollFrom_succ, if_neg (by omega), hst, hrsn, if_neg (by decide), if_pos rfl]
  simp [jsStrOr, hne]

/-- Witness for C5 at a concrete environment. -/
theorem check_status_error_contained_witness :
    pollFrom
      { onebotHttpUrl := none, onebotMessageType := none,
        onebotTargetId := none, onebotAccessToken := none,
        telegramBotToken := some "tok", telegramChatId := some "42",
        cfImgbedUploadUrl := none, cfImgbedApiKey := none,
        siliconflowApiKey := some "sk", siliconflowVideoModel := "Wan-AI/Wan2.1-T2V-14B",
        defaultSpeechModel := "tts-1", defaultSpeechVoice := "alloy",
        defaultSpeechSpeed := 1, imageProcessingTimeout := 300000 }
      { nowAt := fun _ => 10000,
        respAt := fun _ => .error "timeout of 30000ms exceeded",
        downloadAt := fun _ => .ok (), readAt := fun _ => .ok (),
        cfUploadAt := fun _ => none }
      0 1 0
    = [.statusCheck 0,
       .fanOut (.failure ("Error checking status: " ++ "timeout of 30000ms exceeded"))] :=
  (check_status_error_contained
    { onebotHttpUrl := none, onebotMessageType := none,
      onebotTargetId := none, onebotAccessToken := none,
      telegramBotToken := some "tok", telegramChatId := some "42",
      cfImgbedUploadUrl := none, cfImgbedApiKey := none,
      siliconflowApiKey := some "sk", siliconflowVideoModel := "Wan-AI/Wan2.1-T2V-14B",
      defaultSpeechModel := "tts-1", defaultSpeechVoice := "alloy",
      defaultSpeechSpeed := 1, imageProcessingTimeout := 300000 }
    { nowAt := fun _ => 10000,
      respAt := fun _ => .error "timeout of 30000ms exceeded",
      downloadAt := fun _ => .ok (), readAt := fun _ => .ok (),
      cfUploadAt := fun _ => none }
    0 0 0 "timeout of 30000ms exceeded" rfl (by decide)).2

/-- C3: a poll loop whose checks return `InQueue`/`InProgress` `N` times and
then `Succeed`, all within the 24-hour window, performs exactly `N + 1`
status checks and exactly one terminal notification fan-out, with at most one
additional remote-upload fan-out — none when the remote store is
unconfigured — and the terminal fan-out is the composed success message
whenever the payload carries a URL and the download/read steps succeed. -/
theorem poll_progress_then_succeed (c : AppConfig) (env : PollEnv) (start : Nat) :
    ∀ (N k m : Nat),
      (∀ j, j < N → (checkVideoStatus (env.respAt (k + j))).status = "InQueue"
                  ∨ (checkVideoStatus (env.respAt (k + j))).status = "InProgress") →
      (∀ j, j ≤ N → env.nowAt (k + j) - start ≤ maxTimeoutMs) →
      (checkVideoStatus (env.respAt (k + N))).status = "Succeed" →
      countChecks (pollFrom c env start (m + N + 1) k) = N + 1
      ∧ fanOutsWhere isTerminalKind (pollFrom c env start (m + N + 1) k) = 1
      ∧ fanOutsWhere isUploadKind (pollFrom c env start (m + N + 1) k) ≤ 1
      ∧ (cfConfigured c = false →
          fanOutsWhere isUploadKind (pollFrom c env start (m + N + 1) k) = 0)
      ∧ (videoUrlPresent (checkVideoStatus (env.respAt (k + N))) = true →
          env.downloadAt (k + N) = .ok () →
          (cfConfigured c = true → env.readAt (k + N) = .ok ()) →
          fanOutsWhere isSuccessKind (pollFrom c env start (m + N + 1) k) = 1) := by
  intro N
  induction N with
  | zero =>
    intro k m hprog hwin hsucc
    simp only [Nat.add_zero] at hsucc ⊢
    have hw : env.nowAt k - start ≤ maxTimeoutMs := by
      have h := hwin 0 (Nat.le_refl 0); rwa [Nat.add_zero] at h
    rw [pollFrom_succ, if_neg (by omega), hsucc, if_pos rfl]
    obtain ⟨h1, h2, h3, h4, _, _, _, h8⟩ := succeedEvents_spec c env k
    by_cases hurl : videoUrlPresent (checkVideoStatus (env.respAt k))
    · rw [if_pos hurl]
      refine ⟨?_, ?_, ?_, ?_, ?_⟩
      · rw [countChecks_cons_check, h1]
      · rw [fanOutsWhere_cons_check, h2]
      · rw [fanOutsWhere_cons_check]; exact h3
      · intro hcf; rw [fanOutsWhere_cons_check]; exact h4 hcf
      · intro _ hdl hrd; rw [fanOutsWhere_cons_check]; exact h8 hdl hrd
    · rw [if_neg hurl]
      refine ⟨?_, ?_, ?_, ?_, ?_⟩
      · rfl
      · rfl
      · rw [fanOutsWhere_cons_check]; decide
      · intro _; rfl
      · intro hu; exact absurd hu (by simp [hurl])
  | succ N ih =>
    intro k m hprog hwin hsucc
    have hst0 : (checkVideoStatus (env.respAt k)).status = "InQueue"
        ∨ (checkVideoStatus (env.respAt k)).status = "InProgress" := by
      have h := hprog 0 (Nat.succ_pos N); rwa [Nat.add_zero] at h
    have hw : env.nowAt k - start ≤ maxTimeoutMs := by
      have h := hwin 0 (Nat.zero_le _); rwa [Nat.add_zero] at h
    have hshift : k + (N + 1) = k + 1 + N := by omega
    have ihres := ih (k + 1) m
      (fun j hj => by
        have hp := hprog (j + 1) (by omega)
        rwa [show k + (j + 1) = k + 1 + j by omega] at hp)
      (fun j hj => by
        have hp := hwin (j + 1) (by omega)
        rwa [show k + (j + 1) = k + 1 + j by omega] at hp)
      (by rwa [hshift] at hsucc)
    rw [show m + (N + 1) + 1 = (m + N + 1) + 1 by omega, pollFrom_succ, if_neg (by omega)]
    rw [if_neg (by rcases hst0 with h | h <;> rw [h] <;> decide)]
    rw [if_neg (by rcases hst0 with h | h <;> rw [h] <;> decide)]
    rw [if_pos hst0]
    obtain ⟨i1, i2, i3, i4, i5⟩ := ihres
    refine ⟨?_, ?_, ?_, ?_, ?_⟩
    · rw [countChecks_cons_check, i1]
    · rw [fanOutsWhere_cons_check, i2]
    · rw [fanOutsWhere_cons_check]; exact i3
    · intro hcf; rw [fanOutsWhere_cons_check]; exact i4 hcf
    · intro hu hdl hrd
      rw [fanOutsWhere_cons_check]
      exact i5 (by rwa [hshift] at hu) (by rwa [hshift] at hdl)
        (fun hcf => by have := hrd hcf; rwa [hshift] at this)

/-- Witness for C3 with `N = 2` (two `InProgress` responses then `Succeed`)
at a concrete environment with the remote store unconfigured. -/
theorem poll_progress_then_succeed_witness :
    countChecks
      (pollFrom
        { onebotHttpUrl := none, onebotMessageType := none,
          onebotTargetId := none, onebotAccessToken := none,
          telegramBotToken := some "tok", telegramChatId := some "42",
          cfImgbedUploadUrl := none, cfImgbedApiKey := none,
          siliconflowApiKey := some "sk", siliconflowVideoModel := "Wan-AI/Wan2.1-T2V-14B",
          defaultSpeechModel := "tts-1", defaultSpeechVoice := "alloy",
          defaultSpeechSpeed := 1, imageProcessingTimeout := 300000 }
        { nowAt := fun k => 10000 * k,
          respAt := fun k =>
            if k < 2 then .ok { status := "InProgress", reason := none, results := none }
            else .ok
              { status := "Succeed", reason := none,
                results := some { videos := some ["https://v.example.com/a.mp4"],
                                  inference := some 9, seed := some 3 } },
          downloadAt := fun _ => .ok (), readAt := fun _ => .ok (),
          cfUploadAt := fun _ => none }
        0 (0 + 2 + 1) 0) = 2 + 1 := by
  have h := poll_progress_then_succeed
    { onebotHttpUrl := none, onebotMessageType := none,
      onebotTargetId := none, onebotAccessToken := none,
      telegramBotToken := some "tok", telegramChatId := some "42",
      cfImgbedUploadUrl := none, cfImgbedApiKey := none,
      siliconflowApiKey := some "sk", siliconflowVideoModel := "Wan-AI/Wan2.1-T2V-14B",
      defaultSpeechModel := "tts-1", defaultSpeechVoice := "alloy",
      defaultSpeechSpeed := 1, imageProcessingTimeout := 300000 }
    { nowAt := fun k => 10000 * k,
      respAt := fun k =>
        if k < 2 then .ok { status := "InProgress", reason := none, results := none }
        else .ok
          { status := "Succeed", reason := none,
            results := some { videos := some ["https://v.example.com/a.mp4"],
                              inference := some 9, seed := some 3 } },
      downloadAt := fun _ => .ok (), readAt := fun _ => .ok (),
      cfUploadAt := fun _ => none }
    0 2 0 0
    (fun j hj => by interval_cases j <;> exact Or.inr rfl)
    (fun j hj => by interval_cases j <;> decide)
    rfl
  exact h.1

/-! ## The generate_video tool handler (src/unnamed/part_001:407-507) -/

/-- Does `needle` match at the front of the second list? -/
def matchesAt : List Char → List Char → Bool
  | [], _ => true
  | _ :: _, [] => false
  | a :: as, b :: bs => a == b && matchesAt as bs

/-- Does the second list contain `needle` as a contiguous run? -/
def hasSubstr (needle : List Char) : List Char → Bool
  | [] => matchesAt needle []
  | b :: rest => matchesAt needle (b :: rest) || hasSubstr needle rest

/-- `hay.includes(needle)` from JS, used for the `I2V` model-family test. -/
def strContains (hay needle : String) : Bool :=
  hasSubstr needle.toList hay.toList

/-- The MCP error codes used by the handlers. -/
inductive ErrorCode where
  | InvalidRequest
  | InvalidParams
  | InternalError
  | MethodNotFound
  deriving Repr, DecidableEq

/-- `McpError`: a machine-readable code plus message. -/
structure McpError where
  code : ErrorCode
  message : String
  deriving Repr, DecidableEq

/-- The argument bag of a `generate_video` call.  Each field is
`string | undefined` (or number for `seed`); a non-string value of `prompt`
or `image_size` behaves like `undefined` for the truthiness-plus-typeof
guards, so it is collapsed into `none`. -/
structure VideoArgs where
  prompt : Option String
  image_size : Option String
  model : Option String
  image : Option String
  negative_prompt : Option String
  seed : Option Int
  deriving Repr, DecidableEq

/-- `const modelToUseForVideo = args.model || config.siliconflowVideoModel`. -/
def resolveVideoModel (c : AppConfig) (args : VideoArgs) : String :=
  jsStrOr args.model c.siliconflowVideoModel

/-- The JSON body POSTed to `/v1/video/submit`. -/
structure VideoRequestBody where
  model : String
  prompt : String
  image_size : String
  negative_prompt : Option String
  seed : Option Int
  image : Option String
  deriving Repr, DecidableEq

/-- Observable effects of one `generate_video` call. -/
inductive VideoEvent where
  | submit (body : VideoRequestBody)
  | backgroundPollStarted (requestId : String)
  deriving Repr, DecidableEq

/-- The `generate_video` branch of `handleToolCall`
(src/unnamed/part_001:407-507).  In source order: the notification-channel
check, the `prompt`/`image_size` validation, the I2V image requirement (a
text-to-video model merely logs a warning when `image` is present), the
request-body construction, the SiliconFlow API-key check, and finally the
HTTP submission — whose outcome `submitResp` carries the `requestId` (or
`none` when the response lacks one, or the `McpError` the catch block
produces).  The returned event list records any HTTP submission and the
start of background polling. -/
def generateVideo (c : AppConfig) (args : VideoArgs)
    (submitResp : Except McpError (Option String)) :
    List VideoEvent × Except McpError String :=
  if ¬ onebotConfigured c ∧ ¬ telegramConfigured c then
    ([], .error ⟨.InvalidRequest,
      "Video generation requires at least one notification method (OneBot or Telegram) to be configured to receive results."⟩)
  else if ¬ (jsTruthy args.prompt && jsTruthy args.image_size) then
    ([], .error ⟨.InvalidParams,
      "Parameters \"prompt\" (string) and \"image_size\" (string) are required for generate_video."⟩)
  else if strContains (resolveVideoModel c args) "I2V" && ¬ jsTruthy args.image then
    ([], .error ⟨.InvalidParams,
      "Parameter \"image\" (string URL or base64 data) is required when using an Image-to-Video model like \""
        ++ resolveVideoModel c args ++ "\"."⟩)
  else
    let body : VideoRequestBody :=
      { model := resolveVideoModel c args,
        prompt := args.prompt.getD "",
        image_size := args.image_size.getD "",
        negative_prompt := if jsTruthy args.negative_prompt then args.negative_prompt else none,
        seed := if jsTruthyInt args.seed then args.seed else none,
        image := if strContains (resolveVideoModel c args) "I2V" && jsTruthy args.image then
            args.image
          else none }
    if ¬ jsTruthy c.siliconflowApiKey then
      ([], .error ⟨.InvalidRequest,
        "SiliconFlow API Key (SILICONFLOW_API_KEY) is not configured."⟩)
    else
      match submitResp with
      | .error e => ([.submit body], .error e)
      | .ok none => ([.submit body], .error ⟨.InternalError,
          "Failed to submit video generation job: Invalid response from SiliconFlow API."⟩)
      | .ok (some requestId) =>
        ([.submit body, .backgroundPollStarted requestId], .ok requestId)

/-- C4: when neither notification channel is fully configured, every
`generate_video` call — arguments and provider response arbitrary, so in
particular perfectly valid calls — fails with the invalid-request
configuration error and produces no HTTP submission event at all. -/
theorem generate_video_requires_notification (c : AppConfig) (args : VideoArgs)
    (submitResp : Except McpError (Option String))
    (hob : onebotConfigured c = false) (htg : telegramConfigured c = false) :
    generateVideo c args submitResp
      = ([], .error ⟨.InvalidRequest,
          "Video generation requires at least one notification method (OneBot or Telegram) to be configured to receive results."⟩) := by
  unfold generateVideo
  rw [if_pos ⟨by simp [hob], by simp [htg]⟩]

/-- Witness for C4: fully valid arguments and a provider that would answer
with a request id, but no notification channel configured. -/
theorem generate_video_requires_notification_witness :
    generateVideo
      { onebotHttpUrl := none, onebotMessageType := none,
        onebotTargetId := none, onebotAccessToken := none,
        telegramBotToken := none, telegramChatId := none,
        cfImgbedUploadUrl := none, cfImgbedApiKey := none,
        siliconflowApiKey := some "sk", siliconflowVideoModel := "Wan-AI/Wan2.1-T2V-14B",
        defaultSpeechModel := "tts-1", defaultSpeechVoice := "alloy",
        defaultSpeechSpeed := 1, imageProcessingTimeout := 300000 }
      { prompt := some "a cat surfing", image_size := some "1280x720",
        model := some "Wan-AI/Wan2.1-T2V-14B", image := none,
        negative_prompt := none, seed := some 42 }
      (.ok (some "req-123"))
      = ([], .error ⟨.InvalidRequest,
          "Video generation requires at least one notification method (OneBot or Telegram) to be configured to receive results."⟩) :=
  generate_video_requires_notification
    { onebotHttpUrl := none, onebotMessageType := none,
      onebotTargetId := none, onebotAccessToken := none,
      telegramBotToken := none, telegramChatId := none,
      cfImgbedUploadUrl := none, cfImgbedApiKey := none,
      siliconflowApiKey := some "sk", siliconflowVideoModel := "Wan-AI/Wan2.1-T2V-14B",
      defaultSpeechModel := "tts-1", defaultSpeechVoice := "alloy",
      defaultSpeechSpeed := 1, imageProcessingTimeout := 300000 }
    { prompt := some "a cat surfing", image_size := some "1280x720",
      model := some "Wan-AI/Wan2.1-T2V-14B", image := none,
      negative_prompt := none, seed := some 42 }
    (.ok (some "req-123")) rfl rfl

/-- C10: for a model whose resolved name does not contain `I2V`, supplying an
`image` argument changes nothing — the call's events and result equal those
of the same call without the image (so it is never rejected for carrying an
image) — and any submitted request body omits the `image` field. -/
theorem t2v_image_ignored (c : AppConfig) (args : VideoArgs)
    (submitResp : Except McpError (Option String)) (img : String)
    (hmodel : strContains (resolveVideoModel c args) "I2V" = false) :
    generateVideo c { args with image := some img } submitResp
      = generateVideo c { args with image := none } submitResp
    ∧ (∀ b, VideoEvent.submit b ∈ (generateVideo c { args with image := some img } submitResp).1 →
        b.image = none) := by
  have hm1 : resolveVideoModel c { args with image := some img } = resolveVideoModel c args := rfl
  have hm2 : resolveVideoModel c { args with image := none } = resolveVideoModel c args := rfl
  constructor
  · unfold generateVideo
    rw [hm1, hm2]
    simp [hmodel]
  · intro b hb
    unfold generateVideo at hb
    rw [hm1] at hb
    simp only [hmodel, Bool.false_and] at hb
    split at hb
    · simp at hb
    · split at hb
      · simp at hb
      · split at hb
        · simp at hb
        · split at hb
          · simp at hb
          · cases submitResp with
            | error e => simp_all
            | ok o => cases o <;> simp_all

/-- Witness for C10 at a concrete text-to-video call carrying an image. -/
theorem t2v_image_ignored_witness :
    generateVideo
      { onebotHttpUrl := some "http://bot:5700", onebotMessageType := some "group",
        onebotTargetId := some "777", onebotAccessToken := none,
        telegramBotToken := none, telegramChatId := none,
        cfImgbedUploadUrl := none, cfImgbedApiKey := none,
        siliconflowApiKey := some "sk", siliconflowVideoModel := "Wan-AI/Wan2.1-T2V-14B",
        defaultSpeechModel := "tts-1", defaultSpeechVoice := "alloy",
        defaultSpeechSpeed := 1, imageProcessingTimeout := 300000 }
      { prompt := some "a dog in space", image_size := some "1280x720",
        model := none, image := some "https://example.com/dog.png",
        negative_prompt := none, seed := none }
      (.ok (some "req-9"))
      = generateVideo
          { onebotHttpUrl := some "http://bot:5700", onebotMessageType := some "group",
            onebotTargetId := some "777", onebotAccessToken := none,
            telegramBotToken := none, telegramChatId := none,
            cfImgbedUploadUrl := none, cfImgbedApiKey := none,
            siliconflowApiKey := some "sk", siliconflowVideoModel := "Wan-AI/Wan2.1-T2V-14B",
            defaultSpeechModel := "tts-1", defaultSpeechVoice := "alloy",
            defaultSpeechSpeed := 1, imageProcessingTimeout := 300000 }
          { prompt := some "a dog in space", image_size := some "1280x720",
            model := none, image := none,
            negative_prompt := none, seed := none }
          (.ok (some "req-9")) :=
  (t2v_image_ignored
    { onebotHttpUrl := some "http://bot:5700", onebotMessageType := some "group",
      onebotTargetId := some "777", onebotAccessToken := none,
      telegramBotToken := none, telegramChatId := none,
      cfImgbedUploadUrl := none, cfImgbedApiKey := none,
      siliconflowApiKey := some "sk", siliconflowVideoModel := "Wan-AI/Wan2.1-T2V-14B",
      defaultSpeechModel := "tts-1", defaultSpeechVoice := "alloy",
      defaultSpeechSpeed := 1, imageProcessingTimeout := 300000 }
    { prompt := some "a dog in space", image_size := some "1280x720",
      model := none, image := none,
      negative_prompt := none, seed := none }
    (.ok (some "req-9")) "https://example.com/dog.png" (by decide)).1

/-! ## generate_speech argument guard
(src/build/types/index.js:2-18, handler src/unnamed/part_001:188-261) -/

/-- A loosely-typed JS property: absent (`undefined`), a value of the
expected type, or present with some other type. -/
inductive JsOptField (α : Type) where
  | undef
  | val (a : α)
  | wrongType
  deriving Repr, DecidableEq

/-- The argument bag of `generate_speech` as seen by the type guard.  `speed`
is modelled after the `Number(v.speed)` coercion the guard performs: `none` =
property absent, `some none` = coerces to NaN, `some (some q)` = coerces to
the number whose exact value is `q`.  The bounds 0.25 and 4.0 are dyadic
rationals, so comparing any IEEE double against them agrees with comparing
its exact rational value. -/
structure SpeechArgs where
  input : JsOptField String
  voice : JsOptField String
  model : JsOptField String
  speed : Option (Option ℚ)
  deriving DecidableEq

/-- `isGenerateSpeechArgs` (src/build/types/index.js:2-18): `input` must be a
string of length at most 4096; `voice` and `model`, when present, must be
strings; `speed`, when present, must coerce to a non-NaN number within
[0.25, 4].  The source returns `false` at the first failing check; the
`&&` chain is equivalent. -/
def isGenerateSpeechArgs (v : SpeechArgs) : Bool :=
  (match v.input with
   | .val s => decide (s.length ≤ 4096)
   | _ => false)
  && (match v.voice with
      | .wrongType => false
      | _ => true)
  && (match v.model with
      | .wrongType => false
      | _ => true)
  && (match v.speed with
      | none => true
      | some none => false
      | some (some q) => decide (¬ (q < (1 : ℚ)/4 ∨ q > 4)))

/-- The one effect of the `generate_speech` handler relevant here: the
speech-synthesis HTTP request with the body it would carry (`speed` is
`none` for NaN, mirroring the JS number). -/
inductive SpeechEvent where
  | speechRequest (input model voice : String) (speed : Option ℚ)
  deriving Repr, DecidableEq

/-- The `generate_speech` branch of `handleToolCall`
(src/unnamed/part_001:188-261): the type guard runs first and rejects with
`InvalidParams` before the HTTP request; otherwise the request body is built
with config defaults (`||` for model and voice, `??` for speed) and the
endpoint is called.  The artifact save and WebDAV mirror that follow the
call do not affect the guard behaviour under verification; the call outcome
is passed through from `apiResp`. -/
def generateSpeech (c : AppConfig) (v : SpeechArgs)
    (apiResp : Except McpError Unit) :
    List SpeechEvent × Except McpError Unit :=
  if isGenerateSpeechArgs v then
    ([.speechRequest
        (match v.input with | .val s => s | _ => "")
        (match v.model with | .val s => jsStrOr (some s) c.defaultSpeechModel
                            | _ => c.defaultSpeechModel)
        (match v.voice with | .val s => jsStrOr (some s) c.defaultSpeechVoice
                            | _ => c.defaultSpeechVoice)
        (match v.speed with | none => some c.defaultSpeechSpeed | some q => q)],
     apiResp)
  else
    ([], .error ⟨.InvalidParams, "Invalid parameters for generate_speech"⟩)

/-- C9: `generate_speech` rejects with an invalid-parameters error and issues
no HTTP request whenever the input exceeds 4096 characters or the speed is
NaN or outside the closed range [0.25, 4]; the rejection is decided by
`isGenerateSpeechArgs` evaluating to `false`. -/
theorem speech_guard_rejects (c : AppConfig) (v : SpeechArgs)
    (apiResp : Except McpError Unit)
    (h : (∃ s, v.input = .val s ∧ s.length > 4096)
       ∨ v.speed = some none
       ∨ (∃ q, v.speed = some (some q) ∧ (q < (1 : ℚ)/4 ∨ q > 4))) :
    isGenerateSpeechArgs v = false
    ∧ generateSpeech c v apiResp
      = ([], .error ⟨.InvalidParams, "Invalid parameters for generate_speech"⟩) := by
  have hguard : isGenerateSpeechArgs v = false := by
    unfold isGenerateSpeechArgs
    rcases h with ⟨s, hs, hlen⟩ | hnan | ⟨q, hq, hout⟩
    · rw [hs]
      simp [show ¬ (s.length ≤ 4096) from by omega]
    · rw [hnan]
      simp
    · rw [hq]
      simp only [decide_eq_false (not_not_intro hout), Bool.and_false]
  refine ⟨hguard, ?_⟩
  unfold generateSpeech
  rw [hguard]
  simp

/-- Witness for C9: a call whose speed argument coerces to 5, above the upper
bound 4. -/
theorem speech_guard_rejects_witness :
    isGenerateSpeechArgs
      { input := .val "hello world", voice := .undef, model := .undef,
        speed := some (some 5) } = false
    ∧ generateSpeech
        { onebotHttpUrl := none, onebotMessageType := none,
          onebotTargetId := none, onebotAccessToken := none,
          telegramBotToken := none, telegramChatId := none,
          cfImgbedUploadUrl := none, cfImgbedApiKey := none,
          siliconflowApiKey := none, siliconflowVideoModel := "Wan-AI/Wan2.1-T2V-14B",
          defaultSpeechModel := "tts-1", defaultSpeechVoice := "alloy",
          defaultSpeechSpeed := 1, imageProcessingTimeout := 300000 }
        { input := .val "hello world", voice := .undef, model := .undef,
          speed := some (some 5) }
        (.ok ())
      = ([], .error ⟨.InvalidParams, "Invalid parameters for generate_speech"⟩) :=
  speech_guard_rejects
    { onebotHttpUrl := none, onebotMessageType := none,
      onebotTargetId := none, onebotAccessToken := none,
      telegramBotToken := none, telegramChatId := none,
      cfImgbedUploadUrl := none, cfImgbedApiKey := none,
      siliconflowApiKey := none, siliconflowVideoModel := "Wan-AI/Wan2.1-T2V-14B",
      defaultSpeechModel := "tts-1", defaultSpeechVoice := "alloy",
      defaultSpeechSpeed := 1, imageProcessingTimeout := 300000 }
    { input := .val "hello world", voice := .undef, model := .undef,
      speed := some (some 5) }
    (.ok ())
    (Or.inr (Or.inr ⟨5, rfl, Or.inr (by norm_num)⟩))

/-! ## Synchronous generate_image response processing
(src/unnamed/part_001:92-185).  Local paths are represented by their filename
component; the enclosing output directory is a fixed prefix in the source. -/

/-- One item of the provider's image batch response. -/
structure ImgItem where
  b64_json : Option String
  url : Option String
  deriving Repr, DecidableEq

/-- One entry of the result array returned to the caller. -/
structure ItemResult where
  local_path : Option String
  cloudflare_url : Option String
  cloudflareUploadSuccess : Bool
  error : Option String
  deriving Repr, DecidableEq

/-- Environment of one `generate_image` processing run: the elapsed time
`Date.now() - startTime` at the j-th timeout checkpoint (two per item), the
`isValidHttpUrl` oracle (a WHATWG URL parse in the source), per-item
write/download/read outcomes, the remote-store upload result, the random
UUIDs (one drawn up front per item, a second in the URL branch) and the URL
file extension (`path.extname(urlPath) || '.png'`). -/
structure ImgEnv where
  elapsedAt : Nat → Nat
  urlValid : String → Bool
  writeAt : Nat → Except String Unit
  downloadAt : Nat → Except String Unit
  readAt : Nat → Except String Unit
  cfUploadAt : Nat → Option String
  uuidAAt : Nat → String
  uuidBAt : Nat → String
  extAt : Nat → String

/-- Filename used when the item carries an embedded `b64_json` payload. -/
def imgFilenameB64 (env : ImgEnv) (i : Nat) : String :=
  "generated_image_" ++ env.uuidAAt i ++ ".png"

/-- Filename regenerated in the URL-download branch. -/
def imgFilenameUrl (env : ImgEnv) (i : Nat) : String :=
  "generated_image_" ++ env.uuidBAt i ++ env.extAt i

/-- The per-item `try`/`catch` of the loop (src/unnamed/part_001:120-145):
decode and write the embedded payload, or download a valid URL and read it
back, or record the missing-data error; any thrown error is caught, nulling
buffer and path and recording the message.  Returns
(buffer present, local path, saveError). -/
def processImageItem (env : ImgEnv) (i : Nat) (item : ImgItem) :
    Bool × Option String × Option String :=
  if jsTruthy item.b64_json then
    match env.writeAt i with
    | .ok _ => (true, some (imgFilenameB64 env i), none)
    | .error e => (false, none, some ("Error processing image: " ++ e))
  else if jsTruthy item.url && env.urlValid (item.url.getD "") then
    match env.downloadAt i with
    | .error e => (false, none, some ("Error processing image: " ++ e))
    | .ok _ =>
      match env.readAt i with
      | .error e => (false, none, some ("Error processing image: " ++ e))
      | .ok _ => (true, some (imgFilenameUrl env i), none)
  else (false, none, some "Missing image data (b64_json or url) in API response")

/-- The `McpError` thrown when a timeout checkpoint fires mid-loop. -/
def imageProcessingTimeoutError : McpError :=
  ⟨.InternalError, "Image processing timed out"⟩

/-- The result loop of `generate_image` (src/unnamed/part_001:101-174):
for each item, a timeout checkpoint (which throws), the per-item processing,
a second checkpoint, then the optional remote-store upload (guarded by
configuration, buffer and path) and the push of the item's result record. -/
def processImageItems (c : AppConfig) (env : ImgEnv) :
    List ImgItem → Nat → Except McpError (List ItemResult)
  | [], _ => .ok []
  | item :: rest, i =>
    if c.imageProcessingTimeout < env.elapsedAt (2 * i) then
      .error imageProcessingTimeoutError
    else
      let r := processImageItem env i item
      if c.imageProcessingTimeout < env.elapsedAt (2 * i + 1) then
        .error imageProcessingTimeoutError
      else
        let cfUrl := if cfConfigured c && r.1 && r.2.1.isSome then env.cfUploadAt i else none
        match processImageItems c env rest (i + 1) with
        | .error e => .error e
        | .ok rs =>
          .ok ({ local_path := r.2.1, cloudflare_url := cfUrl,
                 cloudflareUploadSuccess := cfUrl.isSome, error := r.2.2 } :: rs)

/-- The `generate_image` response handling around the loop
(src/unnamed/part_001:91-94): a missing, non-array or empty `data` payload
throws before any item is processed. -/
def generateImageResults (c : AppConfig) (env : ImgEnv)
    (responseData : Option (List ImgItem)) : Except McpError (List ItemResult) :=
  match responseData with
  | none => .error ⟨.InternalError, "API response did not contain image data."⟩
  | some [] => .error ⟨.InternalError, "API response did not contain image data."⟩
  | some (item :: rest) => processImageItems c env (item :: rest) 0

/-- C7: a two-item batch whose first item carries a valid embedded payload
(and saves fine) and whose second item has neither an embedded payload nor a
valid URL yields, within the processing timeout, a normal (non-throwing)
result with exactly two entries: the first persisted with no error, the
second unpersisted with the missing-data error — one artifact and one
isolated per-item failure record. -/
theorem image_batch_partial_failure (c : AppConfig) (env : ImgEnv) (good bad : ImgItem)
    (hgood : jsTruthy good.b64_json = true)
    (hbadb : jsTruthy bad.b64_json = false)
    (hbadu : (jsTruthy bad.url && env.urlValid (bad.url.getD "")) = false)
    (hwrite : env.writeAt 0 = .ok ())
    (htime : ∀ j, j ≤ 3 → env.elapsedAt j ≤ c.imageProcessingTimeout) :
    ∃ r0 r1, generateImageResults c env (some [good, bad]) = .ok [r0, r1]
      ∧ r0.local_path = some (imgFilenameB64 env 0) ∧ r0.error = none
      ∧ r1.local_path = none
      ∧ r1.error = some "Missing image data (b64_json or url) in API response"
      ∧ ([r0, r1].filter (fun r => r.local_path.isSome)).length = 1
      ∧ ([r0, r1].filter (fun r => r.error.isSome)).length = 1 := by
  have ht0 : ¬ c.imageProcessingTimeout < env.elapsedAt 0 := by
    have := htime 0 (by omega); omega
  have ht1 : ¬ c.imageProcessingTimeout < env.elapsedAt 1 := by
    have := htime 1 (by omega); omega
  have ht2 : ¬ c.imageProcessingTimeout < env.elapsedAt 2 := by
    have := htime 2 (by omega); omega
  have ht3 : ¬ c.imageProcessingTimeout < env.elapsedAt 3 := by
    have := htime 3 (by omega); omega
  have hp0 : processImageItem env 0 good = (true, some (imgFilenameB64 env 0), none) := by
    unfold processImageItem
    rw [if_pos hgood, hwrite]
  have hp1 : processImageItem env 1 bad
      = (false, none, some "Missing image data (b64_json or url) in API response") := by
    unfold processImageItem
    rw [if_neg (by simp [hbadb]), if_neg (by simp [hbadu])]
  by_cases hcf : cfConfigured c
  · refine ⟨{ local_path := some (imgFilenameB64 env 0),
              cloudflare_url := env.cfUploadAt 0,
              cloudflareUploadSuccess := (env.cfUploadAt 0).isSome,
              error := none },
            { local_path := none, cloudflare_url := none, cloudflareUploadSuccess := false,
              error := some "Missing image data (b64_json or url) in API response" },
            ?_, rfl, rfl, rfl, rfl, ?_, ?_⟩
    · simp [generateImageResults, processImageItems, hp0, hp1, ht0, ht1, ht2, ht3, hcf]
    · simp [List.filter]
    · simp [List.filter]
  · refine ⟨{ local_path := some (imgFilenameB64 env 0),
              cloudflare_url := none, cloudflareUploadSuccess := false,
              error := none },
            { local_path := none, cloudflare_url := none, cloudflareUploadSuccess := false,
              error := some "Missing image data (b64_json or url) in API response" },
            ?_, rfl, rfl, rfl, rfl, ?_, ?_⟩
    · simp [generateImageResults, processImageItems, hp0, hp1, ht0, ht1, ht2, ht3, hcf]
    · simp [List.filter]
    · simp [List.filter]

/-- Witness for C7 at a concrete environment and batch. -/
theorem image_batch_partial_failure_witness :
    ∃ r0 r1,
      generateImageResults
        { onebotHttpUrl := none, onebotMessageType := none,
          onebotTargetId := none, onebotAccessToken := none,
          telegramBotToken := none, telegramChatId := none,
          cfImgbedUploadUrl := none, cfImgbedApiKey := none,
          siliconflowApiKey := none, siliconflowVideoModel := "Wan-AI/Wan2.1-T2V-14B",
          defaultSpeechModel := "tts-1", defaultSpeechVoice := "alloy",
          defaultSpeechSpeed := 1, imageProcessingTimeout := 300000 }
        { elapsedAt := fun _ => 1000, urlValid := fun _ => false,
          writeAt := fun _ => .ok (), downloadAt := fun _ => .ok (),
          readAt := fun _ => .ok (), cfUploadAt := fun _ => none,
          uuidAAt := fun _ => "u0", uuidBAt := fun _ => "u1",
          extAt := fun _ => ".png" }
        (some [{ b64_json := some "aGVsbG8=", url := none },
               { b64_json := none, url := none }])
      = .ok [r0, r1]
      ∧ r0.error = none ∧ r1.local_path = none :=
  match image_batch_partial_failure
    { onebotHttpUrl := none, onebotMessageType := none,
      onebotTargetId := none, onebotAccessToken := none,
      telegramBotToken := none, telegramChatId := none,
      cfImgbedUploadUrl := none, cfImgbedApiKey := none,
      siliconflowApiKey := none, siliconflowVideoModel := "Wan-AI/Wan2.1-T2V-14B",
      defaultSpeechModel := "tts-1", defaultSpeechVoice := "alloy",
      defaultSpeechSpeed := 1, imageProcessingTimeout := 300000 }
    { elapsedAt := fun _ => 1000, urlValid := fun _ => false,
      writeAt := fun _ => .ok (), downloadAt := fun _ => .ok (),
      readAt := fun _ => .ok (), cfUploadAt := fun _ => none,
      uuidAAt := fun _ => "u0", uuidBAt := fun _ => "u1",
      extAt := fun _ => ".png" }
    { b64_json := some "aGVsbG8=", url := none }
    { b64_json := none, url := none }
    rfl rfl rfl rfl (fun j hj => (by norm_num : (1000 : Nat) ≤ 300000)) with
  | ⟨r0, r1, heq, _, he0, hl1, _, _, _⟩ => ⟨r0, r1, heq, he0, hl1⟩

/-! ## edit_image temp-file lifecycle
(src/unnamed/part_001:263-333; downloadFile src/src/utils/index.ts:35-49) -/

/-- Environment of one `edit_image` call whose `image` argument is an
HTTP(S) URL: the download outcome, the outcome of reading the temp copy, and
the provider call's outcome (`ok (some _)` = response with image data,
`ok none` = response missing image data, `error` = HTTP failure as wrapped
by the outer catch). -/
structure EditEnv where
  downloadRes : Except String Unit
  readRes : Except String Unit
  providerRes : Except McpError (Option Unit)

/-- Temp-file lifecycle of the URL-input `edit_image` path.  First component:
does the temp file still exist when the call finishes?  `downloadFile` runs
`fs.createWriteStream(outputPath)` — creating the file — before the HTTP
request, so the file exists from the start.  On download failure the handler
throws with `cleanupTempFile` still `false`, so no `unlink` runs; on read
failure it unlinks before throwing; the provider call sits in a
`try`/`finally` whose `finally` unlinks on success, missing data and HTTP
error alike.  `unlink` is modelled as removing the file (its own failure is
only logged in the source).  Second component: the call's outcome as seen by
the caller (`ok` = proceeds to the per-item save loop with the temp file
already deleted). -/
def editImageUrlInputTemp (env : EditEnv) : Bool × Except McpError Unit :=
  match env.downloadRes with
  | .error e =>
    (true, .error ⟨.InternalError, "Failed to download image from URL: " ++ e⟩)
  | .ok _ =>
    match env.readRes with
    | .error e =>
      (false, .error ⟨.InternalError, "Failed to read image file: " ++ e⟩)
    | .ok _ =>
      match env.providerRes with
      | .error e => (false, .error e)
      | .ok none =>
        (false, .error ⟨.InternalError, "API response for image edit did not contain image data."⟩)
      | .ok (some _) => (false, .ok ())

/-- C8 counterexample: when the download of the input image fails, the
`edit_image` call throws while the temp file created by the pre-opened write
stream is never deleted — refuting deletion "on every outcome" including
download failure. -/
theorem edit_temp_cleanup_cex :
    (editImageUrlInputTemp
      { downloadRes := .error "connect ECONNREFUSED 93.184.216.34:443",
        readRes := .ok (), providerRes := .ok (some ()) }).1 = true
    ∧ (editImageUrlInputTemp
        { downloadRes := .error "connect ECONNREFUSED 93.184.216.34:443",
          readRes := .ok (), providerRes := .ok (some ()) }).2
      = .error ⟨.InternalError,
          "Failed to download image from URL: connect ECONNREFUSED 93.184.216.34:443"⟩ := by
  constructor <;> rfl

/-- C8 (amended): once the input download has succeeded, the temp copy is
deleted on every outcome of the edit operation — read failure, provider
error, missing response data, and provider success. -/
theorem edit_temp_cleanup_after_download (env : EditEnv)
    (h : env.downloadRes = .ok ()) :
    (editImageUrlInputTemp env).1 = false := by
  unfold editImageUrlInputTemp
  rw [h]
  cases hr : env.readRes with
  | error e => rfl
  | ok u =>
    cases hp : env.providerRes with
    | error e => rfl
    | ok o => cases o <;> rfl

/-- Witness for C8 (amended) at a concrete environment: download succeeded,
provider errored. -/
theorem edit_temp_cleanup_after_download_witness :
    (editImageUrlInputTemp
      { downloadRes := .ok (), readRes := .ok (),
        providerRes := .error ⟨.InternalError, "API Error: Request failed with status code 500"⟩ }).1
    = false :=
  edit_temp_cleanup_after_download
    { downloadRes := .ok (), readRes := .ok (),
      providerRes := .error ⟨.InternalError, "API Error: Request failed with status code 500"⟩ }
    rfl

end OpenapiIntegrator
